import Mathlib

/-!
Verification of the mtg-art-downloader core logic (src/card.py, src/core.py)
against its natural-language specification.

The Python code is shallowly embedded:
* pure functions become Lean functions on explicit record types;
* Python exceptions (KeyError, IndexError, ...) become `Except PyErr`;
* the network collaborators (`get_mtgp_page`, `requests.get`) become
  explicit oracle parameters describing the fetched/parsed content;
* the single piece of hidden object state (`Card._promo`) becomes an
  explicit `CardState` threaded through the embedding of `Card.mtgp_set`.

String primitives (`in`, `str.replace`, `str.lower`, `str.upper`,
`sorted`) are re-implemented on `List Char` with Python's semantics
(code-point comparison, replace-all, ASCII case mapping for the ASCII
data appearing in this program) so every definition is executable.
-/

set_option maxHeartbeats 1000000

/-! ## Python-style string primitives -/

/-- Python exception kinds that the embedded code can raise. -/
inductive PyErr where
  | typeError
  | attributeError
  | indexError
  | keyError
  | valueError
  | fileNotFound
  | netError
  deriving DecidableEq, Repr

/-- `n.isPrefixOf h` on character lists (executable). -/
def isPrefixC : List Char → List Char → Bool
  | [], _ => true
  | _ :: _, [] => false
  | a :: as, b :: bs => a == b && isPrefixC as bs

/-- Python `needle in hay` (substring containment) on character lists. -/
def isInfixC (n : List Char) : List Char → Bool
  | [] => n.isEmpty
  | b :: bs => isPrefixC n (b :: bs) || isInfixC n bs

/-- Python `needle in hay` for strings. -/
def pyIn (needle hay : String) : Bool :=
  isInfixC needle.data hay.data

/-- Left-to-right non-overlapping replacement on character lists,
matching Python `str.replace` for a non-empty needle (the program only
ever replaces non-empty needles).  Fuelled so every use is structural
recursion; fuel equal to the list length suffices because each step
consumes at least one character. -/
def replaceFuelC (nd rp : List Char) : Nat → List Char → List Char
  | 0, l => l
  | _ + 1, [] => []
  | fuel + 1, c :: rest =>
    if nd ≠ [] ∧ isPrefixC nd (c :: rest) = true then
      rp ++ replaceFuelC nd rp fuel ((c :: rest).drop nd.length)
    else
      c :: replaceFuelC nd rp fuel rest

/-- Python `s.replace(pat, rep)` (all occurrences, left to right). -/
def pyreplace (s pat rep : String) : String :=
  ⟨replaceFuelC pat.data rep.data s.data.length s.data⟩

/-- Python `s.lower()` (ASCII case mapping suffices for this program). -/
def pyLower (s : String) : String := ⟨s.data.map Char.toLower⟩

/-- Python `s.upper()`. -/
def pyUpper (s : String) : String := ⟨s.data.map Char.toUpper⟩

/-- Strict lexicographic comparison of character lists by code point,
Python's `<` on strings. -/
def lexLt : List Char → List Char → Bool
  | [], [] => false
  | [], _ :: _ => true
  | _ :: _, [] => false
  | a :: as, b :: bs =>
    if a < b then true else if b < a then false else lexLt as bs

/-- Python `a < b` on strings. -/
def strLt (a b : String) : Bool := lexLt a.data b.data

/-- Stable insertion into an ascending list (ties keep insertion order). -/
def insStr (x : String) : List String → List String
  | [] => [x]
  | y :: ys => if strLt y x then y :: insStr x ys else x :: y :: ys

/-- Python `sorted` on a list of strings (stable, ascending). -/
def sortStr : List String → List String
  | [] => []
  | x :: xs => insStr x (sortStr xs)

/-- Decimal digits of a natural number, most significant first
(fuelled: `fuel` strictly above the number of digits suffices). -/
def natToRevDigits : Nat → Nat → List Char
  | 0, _ => []
  | _ + 1, 0 => []
  | fuel + 1, n => Char.ofNat (48 + n % 10) :: natToRevDigits fuel (n / 10)

/-- Python `str(n)` for a natural number. -/
def natToStr (n : Nat) : String :=
  if n = 0 then "0" else ⟨(natToRevDigits (n + 1) n).reverse⟩

/-- Python `int(s)` for a non-empty decimal digit string. -/
def digitsToNat (l : List Char) : Nat :=
  l.foldl (fun a c => 10 * a + (c.toNat - 48)) 0

/-- `os.path.basename` (the part after the last slash). -/
def basenameS (s : String) : String :=
  ⟨(s.data.reverse.takeWhile (fun c => c ≠ '/')).reverse⟩

/-- `os.path.dirname` (the part before the last slash) for the relative
image paths this program manipulates. -/
def dirnameS (s : String) : String :=
  ⟨((s.data.reverse.dropWhile (fun c => c ≠ '/')).reverse).dropLast⟩

/-- Safe list indexing; `.error .indexError` models Python's IndexError. -/
def idxE (l : List String) (i : Nat) : Except PyErr String :=
  match l.get? i with
  | some v => Except.ok v
  | none => Except.error PyErr.indexError

/-! ## The card record (`Card.c` dict, fields per §6 of the spec)

A field read in Python as `c.get(key, default)` is modelled as a total
field (absence is the default); `card_faces`, whose *presence* is
branched on (`"card_faces" not in c`), is an `Option`; `cn` (only read
as `card.get('cn')`) is an `Option`. -/

structure FaceData where
  name : String
  artist : String
  deriving DecidableEq, Repr

structure CardRec where
  name : String := ""
  set : String := ""
  set_name : String := ""
  set_type : String := ""
  collector_number : String := ""
  cn : Option String := none
  artist : String := ""
  frame : String := ""
  layout : String := ""
  border_color : String := ""
  frame_effects : List String := []
  type_line : String := ""
  keywords : List String := []
  card_faces : Option (List FaceData) := none
  deriving DecidableEq, Repr

/-! ## C1 — `get_card_class` (src/card.py:620-655) -/

/-- One constructor per card class in src/card.py. -/
inductive CardClass where
  | card          -- class Card ("normal")
  | transform
  | mdfc
  | adventure
  | leveler
  | saga
  | planar
  | meld
  | cls           -- class Class ("class" is a Lean keyword)
  | split
  | flip
  | token
  | reversible
  | planeswalker
  | mutate
  | land
  | basicLand
  deriving DecidableEq, Repr

/-- The `class_map` dict of `get_card_class`, with its
`.get(layout, Card)` default. -/
def class_map (layout : String) : CardClass :=
  if layout = "normal" then CardClass.card
  else if layout = "transform" then CardClass.transform
  else if layout = "modal_dfc" then CardClass.mdfc
  else if layout = "adventure" then CardClass.adventure
  else if layout = "leveler" then CardClass.leveler
  else if layout = "saga" then CardClass.saga
  else if layout = "planar" then CardClass.planar
  else if layout = "meld" then CardClass.meld
  else if layout = "class" then CardClass.cls
  else if layout = "split" then CardClass.split
  else if layout = "flip" then CardClass.flip
  else if layout = "token" then CardClass.token
  else if layout = "reversible_card" then CardClass.reversible
  else CardClass.card

/-- `get_card_class` (src/card.py:620-655), translated clause by clause.
`"Mutate" in c.get("keywords", "")` is list membership when the key is
present (a Scryfall keyword list); an absent key is the empty list. -/
def get_card_class (c : CardRec) : CardClass :=
  if pyIn "Planeswalker" c.type_line = true ∧ c.card_faces = none then
    CardClass.planeswalker
  else if pyIn "Saga" c.type_line = true ∧ c.card_faces = none then
    CardClass.saga
  else if "Mutate" ∈ c.keywords then
    CardClass.mutate
  else if pyIn "Land" c.type_line = true ∧ c.card_faces = none then
    (if pyIn "Basic Land" c.type_line = true then CardClass.basicLand
     else CardClass.land)
  else class_map c.layout

/-- Claim-side classifier: an explicit prioritized rule list with
first-match-wins semantics, defaulting to the declared-layout dispatch
(spec §4.1, rules 1-5). -/
def classifyRules : List (CardRec → Option CardClass) :=
  [ fun c => if pyIn "Planeswalker" c.type_line = true ∧ c.card_faces = none
             then some CardClass.planeswalker else none,
    fun c => if pyIn "Saga" c.type_line = true ∧ c.card_faces = none
             then some CardClass.saga else none,
    fun c => if "Mutate" ∈ c.keywords
             then some CardClass.mutate else none,
    fun c => if pyIn "Land" c.type_line = true ∧ c.card_faces = none
             then (if pyIn "Basic Land" c.type_line = true
                   then some CardClass.basicLand else some CardClass.land)
             else none ]

/-- First rule that fires wins; otherwise dispatch on the layout tag. -/
def classifySpec (c : CardRec) : CardClass :=
  (classifyRules.filterMap (fun r => r c)).headD (class_map c.layout)

/-- C1: classification follows the stated priority order with first
match winning, falls back to the declared-layout dispatch (defaulting
to "normal"), and is deterministic (a pure function of the record). -/
theorem get_card_class_spec :
    (∀ c : CardRec, get_card_class c = classifySpec c) ∧
    (∀ c : CardRec, get_card_class c = get_card_class c) := by
  constructor
  · intro c
    unfold get_card_class classifySpec classifyRules
    by_cases h1 : pyIn "Planeswalker" c.type_line = true <;>
      by_cases h2 : c.card_faces = none <;>
      by_cases h3 : pyIn "Saga" c.type_line = true <;>
      by_cases h4 : "Mutate" ∈ c.keywords <;>
      by_cases h5 : pyIn "Land" c.type_line = true <;>
      by_cases h6 : pyIn "Basic Land" c.type_line = true <;>
      simp [h1, h2, h3, h4, h5, h6]
  · intro c
    rfl

/-! ## C5 — `Card.get_template` / `Card.find_first_match`
(src/card.py:244-265)

`find_first_match` computes `set(array1) & set(array2)` and returns
`next(iter(...), None)`.  Python set iteration order over strings is
hash-randomized (PYTHONHASHSEED), so *which* common element comes out
is unspecified; the faithful embedding is a relation admitting any
common element. -/

def template_effects : List String :=
  ["enchantment", "miracle", "colorshifted", "extendedart", "etched", "snow"]

/-- `Card.find_first_match(array1, array2)`: some arbitrary element of
the set intersection, or `None` when the intersection is empty. -/
inductive FindFirstMatch (a1 a2 : List String) : Option String → Prop
  | found (x : String) (h1 : x ∈ a1) (h2 : x ∈ a2) :
      FindFirstMatch a1 a2 (some x)
  | not_found (h : ∀ x ∈ a1, x ∉ a2) :
      FindFirstMatch a1 a2 none

/-- `Card.get_template` (src/card.py:244-256) as a relation (the only
nondeterminism is `find_first_match`).  The walrus `if result := ...`
branch is taken exactly when the intersection is non-empty: every
element of `template_effects` is a non-empty, hence truthy, string. -/
inductive GetTemplate (c : CardRec) : String → Prop
  | token (h : c.layout = "token") : GetTemplate c "token"
  | borderless (h1 : c.layout ≠ "token") (h2 : c.border_color = "borderless") :
      GetTemplate c "borderless"
  | classic (h1 : c.layout ≠ "token") (h2 : c.border_color ≠ "borderless")
      (h3 : c.frame = "1993" ∨ c.frame = "1995") : GetTemplate c "classic"
  | effect (h1 : c.layout ≠ "token") (h2 : c.border_color ≠ "borderless")
      (h3 : ¬(c.frame = "1993" ∨ c.frame = "1995"))
      (x : String) (hx1 : x ∈ c.frame_effects) (hx2 : x ∈ template_effects)
      (hr : FindFirstMatch c.frame_effects template_effects (some x)) :
      GetTemplate c x
  | normal (h1 : c.layout ≠ "token") (h2 : c.border_color ≠ "borderless")
      (h3 : ¬(c.frame = "1993" ∨ c.frame = "1995"))
      (h4 : ∀ x ∈ c.frame_effects, x ∉ template_effects) :
      GetTemplate c "normal"

/-- The claim's reading of the frame-effect step: the first tag *in the
record's own list order* that belongs to `template_effects`, defaulting
to "normal". -/
def firstListMatch (effects : List String) : String :=
  (effects.find? (fun x => template_effects.contains x)).getD "normal"

/-- A concrete record whose frame-effect list mentions two tags of the
fixed set, in the order ["miracle", "enchantment"]. -/
def c5rec : CardRec :=
  { layout := "normal", border_color := "black", frame := "2015",
    frame_effects := ["miracle", "enchantment"] }

/-- C5 counterexample: on `c5rec` the code may return "enchantment"
(set-intersection iteration order is unspecified), while the claim's
first-in-list-order rule demands "miracle". -/
theorem get_template_first_match_cex :
    GetTemplate c5rec "enchantment" ∧
    firstListMatch c5rec.frame_effects = "miracle" ∧
    ("enchantment" : String) ≠ "miracle" := by
  refine ⟨?_, by decide, by decide⟩
  have hmem1 : "enchantment" ∈ c5rec.frame_effects := by decide
  have hmem2 : "enchantment" ∈ template_effects := by decide
  exact GetTemplate.effect (by decide) (by decide) (by decide)
    "enchantment" hmem1 hmem2 (FindFirstMatch.found _ hmem1 hmem2)

/-- C5 amended: under the stated precedence conditions the chosen
template is *some* common element of the record's frame-effect list and
the fixed set (which one is unspecified — the code draws from a Python
set), and "normal" exactly when no tag of the list belongs to the set;
the earlier token/borderless/classic checks take precedence as stated. -/
theorem get_template_characterization (c : CardRec) (r : String)
    (h1 : c.layout ≠ "token") (h2 : c.border_color ≠ "borderless")
    (h3 : c.frame ≠ "1993") (h4 : c.frame ≠ "1995") :
    GetTemplate c r ↔
      ((r ∈ c.frame_effects ∧ r ∈ template_effects) ∨
       (r = "normal" ∧ ∀ x ∈ c.frame_effects, x ∉ template_effects)) := by
  constructor
  · intro hg
    cases hg with
    | token h => exact absurd h h1
    | borderless _ h => exact absurd h h2
    | classic _ _ h => cases h with
      | inl h => exact absurd h h3
      | inr h => exact absurd h h4
    | effect _ _ _ x hx1 hx2 _ => exact Or.inl ⟨hx1, hx2⟩
    | normal _ _ _ h => exact Or.inr ⟨rfl, h⟩
  · intro hc
    cases hc with
    | inl h =>
        exact GetTemplate.effect h1 h2 (by rintro (h | h) <;> simp_all)
          r h.1 h.2 (FindFirstMatch.found r h.1 h.2)
    | inr h =>
        rw [h.1]
        exact GetTemplate.normal h1 h2 (by rintro (h | h) <;> simp_all) h.2

/-- C5 witness: the characterization evaluated on `c5rec` and the
result "miracle". -/
theorem get_template_characterization_witness :
    GetTemplate c5rec "miracle" ↔
      (("miracle" ∈ c5rec.frame_effects ∧ "miracle" ∈ template_effects) ∨
       ("miracle" = "normal" ∧
        ∀ x ∈ c5rec.frame_effects, x ∉ template_effects)) :=
  get_template_characterization c5rec "miracle"
    (by decide) (by decide) (by decide) (by decide)

/-! ## C3 — `Card.mtgp_set` / `Card.promo` (src/card.py:129-198)

`Card._promo` is the only hidden mutable state touched by these
members; it is made explicit as `CardState`.  Reading `mtgp_set`
executes the resolution below, *assigning* `promo := True` on the
promotional branches; reading `promo` just returns the flag.  The
static tables `cfg.replace_sets` / `con.promo_sets` and the
`get_mtgp_page` probe (truthiness of the fetched page) are parameters. -/

structure CardState where
  promo : Bool
  deriving DecidableEq, Repr

/-- `Card.mtgp_set` (src/card.py:129-155): returns the mapped set code
and the post-read object state. -/
def mtgp_set (replace_sets : String → Option String)
    (promo_sets : List String) (pageExists : String → Bool)
    (c : CardRec) (st : CardState) : String × CardState :=
  let m := (replace_sets c.set).getD c.set
  if m ∈ promo_sets then (m, ⟨true⟩)
  else if pyIn "Alchemy" c.set_name = true then ("a22", ⟨true⟩)
  else if pyIn "Judge Gift" c.set_name = true ∨ m = "dci" then ("dci", ⟨true⟩)
  else if c.set_name = "Legacy Championship" ∨
          c.set_name = "Vintage Championship" then ("uni", ⟨true⟩)
  else if c.set_type = "funny" ∨ c.set_type = "promo" then
    (if pageExists ("https://www.mtgpics.com/card?ref=" ++ m ++ "001")
     then (m, st) else ("pmo", ⟨true⟩))
  else (m, st)

/-- `Card.promo` getter (src/card.py:192-194): a pure read. -/
def promo_read (st : CardState) : Bool × CardState := (st.promo, st)

/-- Spec-side resolver (spec §4.2 / §9): the explicit, side-effect-free
`(secondary_set_code, is_promotional)` return value. -/
def resolve_set_spec (replace_sets : String → Option String)
    (promo_sets : List String) (pageExists : String → Bool)
    (c : CardRec) : String × Bool :=
  let m := (replace_sets c.set).getD c.set
  if m ∈ promo_sets then (m, true)
  else if pyIn "Alchemy" c.set_name = true then ("a22", true)
  else if pyIn "Judge Gift" c.set_name = true ∨ m = "dci" then ("dci", true)
  else if c.set_name = "Legacy Championship" ∨
          c.set_name = "Vintage Championship" then ("uni", true)
  else if c.set_type = "funny" ∨ c.set_type = "promo" then
    (if pageExists ("https://www.mtgpics.com/card?ref=" ++ m ++ "001")
     then (m, false) else ("pmo", true))
  else (m, false)

/-- An Alchemy record, whose resolution takes the "a22" branch. -/
def c3rec : CardRec := { set := "ymid", set_name := "Alchemy: Innistrad" }

/-- C3 counterexample: reading the derived set code *does* mutate the
record's hidden promotional flag — on an Alchemy record the flag flips
from false to true as a side effect of the read. -/
theorem mtgp_set_mutation_cex :
    (mtgp_set (fun _ => none) [] (fun _ => false) c3rec ⟨false⟩).2 ≠
      (⟨false⟩ : CardState) ∧
    (mtgp_set (fun _ => none) [] (fun _ => false) c3rec ⟨false⟩).2.promo = true := by
  constructor <;> decide

/-- C3 amended: the hidden mutation is exactly the explicit resolver's
promotional output OR-ed into the flag (the flag is only ever raised,
never cleared, and nothing else of the state changes), the returned
code is the resolver's code, and reading the `promo` flag itself is
side-effect free. -/
theorem mtgp_set_resolver_spec (replace_sets : String → Option String)
    (promo_sets : List String) (pageExists : String → Bool)
    (c : CardRec) (st : CardState) :
    mtgp_set replace_sets promo_sets pageExists c st =
      ((resolve_set_spec replace_sets promo_sets pageExists c).1,
       ⟨st.promo || (resolve_set_spec replace_sets promo_sets pageExists c).2⟩) ∧
    promo_read st = (st.promo, st) := by
  refine ⟨?_, rfl⟩
  unfold mtgp_set resolve_set_spec
  obtain ⟨p⟩ := st
  by_cases h1 : ((replace_sets c.set).getD c.set) ∈ promo_sets <;>
    by_cases h2 : pyIn "Alchemy" c.set_name = true <;>
    by_cases h3 : pyIn "Judge Gift" c.set_name = true ∨
      ((replace_sets c.set).getD c.set) = "dci" <;>
    by_cases h4 : c.set_name = "Legacy Championship" ∨
      c.set_name = "Vintage Championship" <;>
    by_cases h5 : c.set_type = "funny" ∨ c.set_type = "promo" <;>
    by_cases h6 : pageExists
      ("https://www.mtgpics.com/card?ref=" ++ ((replace_sets c.set).getD c.set) ++ "001") = true <;>
    simp [h1, h2, h3, h4, h5, h6]

/-! ## C2 — `get_card_face` (src/core.py:278-340)

`entries` is the scraped img-tag list; each element stands for the
tag's `src` attribute.  The function isolates basename codes (basename
minus ".jpg"), builds the directory URL from the first entry, and
picks an image by the count-based strategy.  A failing list index is
Python's `IndexError`. -/

/-- The image directory URL built from the first entry
(`art_th` rewritten to `art`). -/
def facePath (entries : List String) : String :=
  pyreplace ("https://mtgpics.com/" ++ dirnameS (entries.headD "")) "art_th" "art"

/-- The isolated basename codes (`os.path.basename(src).replace(".jpg","")`). -/
def faceCodes (entries : List String) : List String :=
  entries.map (fun e => pyreplace (basenameS e) ".jpg" "")

/-- `f"{path}/{code}.jpg"`. -/
def faceUrl (path code : String) : String := path ++ "/" ++ code ++ ".jpg"

/-- The `for i in arr` partition loop of `get_card_face`: length-3
codes to the left list, length->3 codes to the right list; anything
shorter than 3 characters lands in neither. -/
def partIS : List String → List String × List String
  | [] => ([], [])
  | i :: rest =>
    let p := partIS rest
    if i.length = 3 then (i :: p.1, p.2)
    else if 3 < i.length then (p.1, i :: p.2)
    else p

/-- `get_card_face` (src/core.py:278-340), translated branch by branch
(the two `if back` arms of each count case are folded into one index
choice). -/
def get_card_face (entries : List String) (back : Bool) :
    Except PyErr (Option String) :=
  if entries.length = 0 then Except.ok none
  else if (faceCodes entries).length = 1 then
    (if back then Except.ok none
     else (idxE (faceCodes entries) 0).map
       (fun c => some (faceUrl (facePath entries) c)))
  else if (faceCodes entries).length = 2 then
    (idxE (sortStr (faceCodes entries)) (if back then 1 else 0)).map
      (fun c => some (faceUrl (facePath entries) c))
  else if 2 < (faceCodes entries).length then
    (if 1 < (partIS (sortStr (faceCodes entries))).1.length then
      (idxE (partIS (sortStr (faceCodes entries))).1 (if back then 1 else 0)).map
        (fun c => some (faceUrl (facePath entries) c))
     else if 1 < (partIS (sortStr (faceCodes entries))).2.length then
      (idxE (partIS (sortStr (faceCodes entries))).2 (if back then 1 else 0)).map
        (fun c => some (faceUrl (facePath entries) c))
     else if back then
      (idxE (partIS (sortStr (faceCodes entries))).1 0).map
        (fun c => some (faceUrl (facePath entries) c))
     else
      (idxE (partIS (sortStr (faceCodes entries))).2 0).map
        (fun c => some (faceUrl (facePath entries) c)))
  else Except.ok none

/-- The claim's rules, verbatim: suffix codes are "all others" (every
code whose length differs from 3), and the result never raises. -/
def pick_face_claim (entries : List String) (back : Bool) : Option String :=
  match sortStr (faceCodes entries) with
  | [] => none
  | [c] => if back then none else some (faceUrl (facePath entries) c)
  | [c1, c2] => some (faceUrl (facePath entries) (if back then c2 else c1))
  | c1 :: c2 :: c3 :: t =>
    (if 2 ≤ ((c1 :: c2 :: c3 :: t).filter (fun c => c.length = 3)).length then
      ((if back then ((c1 :: c2 :: c3 :: t).filter (fun c => c.length = 3)).get? 1
        else ((c1 :: c2 :: c3 :: t).filter (fun c => c.length = 3)).get? 0).map
        (faceUrl (facePath entries)))
     else if 2 ≤ ((c1 :: c2 :: c3 :: t).filter (fun c => c.length ≠ 3)).length then
      ((if back then ((c1 :: c2 :: c3 :: t).filter (fun c => c.length ≠ 3)).get? 1
        else ((c1 :: c2 :: c3 :: t).filter (fun c => c.length ≠ 3)).get? 0).map
        (faceUrl (facePath entries)))
     else
      ((if back
        then (if ((c1 :: c2 :: c3 :: t).filter (fun c => c.length = 3)).isEmpty
              then ((c1 :: c2 :: c3 :: t).filter (fun c => c.length ≠ 3)).get? 1
              else ((c1 :: c2 :: c3 :: t).filter (fun c => c.length = 3)).get? 1)
        else (if ((c1 :: c2 :: c3 :: t).filter (fun c => c.length = 3)).isEmpty
              then ((c1 :: c2 :: c3 :: t).filter (fun c => c.length ≠ 3)).get? 0
              else ((c1 :: c2 :: c3 :: t).filter (fun c => c.length = 3)).get? 0)).map
        (faceUrl (facePath entries))))

/-- The amended rules: the partition keeps only length-3 (numeric) and
length->3 (suffix) codes, dropping shorter ones, and the degenerate
>2-candidate case takes front from the suffix list and back from the
numeric list unconditionally, raising `IndexError` when the needed
list is empty; the 0/1/2-candidate rules are as claimed. -/
def pick_face_amended (entries : List String) (back : Bool) :
    Except PyErr (Option String) :=
  match sortStr (faceCodes entries) with
  | [] => Except.ok none
  | [c] => if back then Except.ok none
           else Except.ok (some (faceUrl (facePath entries) c))
  | [c1, c2] => Except.ok (some (faceUrl (facePath entries) (if back then c2 else c1)))
  | c1 :: c2 :: c3 :: t =>
    (if 1 < ((c1 :: c2 :: c3 :: t).filter (fun c => c.length = 3)).length then
      (idxE ((c1 :: c2 :: c3 :: t).filter (fun c => c.length = 3))
        (if back then 1 else 0)).map
        (fun c => some (faceUrl (facePath entries) c))
     else if 1 < ((c1 :: c2 :: c3 :: t).filter (fun c => 3 < c.length)).length then
      (idxE ((c1 :: c2 :: c3 :: t).filter (fun c => 3 < c.length))
        (if back then 1 else 0)).map
        (fun c => some (faceUrl (facePath entries) c))
     else if back then
      (idxE ((c1 :: c2 :: c3 :: t).filter (fun c => c.length = 3)) 0).map
        (fun c => some (faceUrl (facePath entries) c))
     else
      (idxE ((c1 :: c2 :: c3 :: t).filter (fun c => 3 < c.length)) 0).map
        (fun c => some (faceUrl (facePath entries) c)))

lemma insStr_length (x : String) (l : List String) :
    (insStr x l).length = l.length + 1 := by
  induction l with
  | nil => rfl
  | cons y ys ih => by_cases h : strLt y x = true <;> simp [insStr, h, ih]

lemma sortStr_length (l : List String) : (sortStr l).length = l.length := by
  induction l with
  | nil => rfl
  | cons x xs ih => simp [sortStr, insStr_length, ih]

/-- The partition loop computes the two in-order filters. -/
lemma partIS_eq (l : List String) :
    partIS l = (l.filter (fun c => c.length = 3),
                l.filter (fun c => 3 < c.length)) := by
  induction l with
  | nil => rfl
  | cons i rest ih =>
    by_cases h3 : i.length = 3
    · simp [partIS, ih, List.filter_cons, h3]
    · by_cases hgt : 3 < i.length
      · simp [partIS, ih, List.filter_cons, h3, hgt]
      · simp [partIS, ih, List.filter_cons, h3, hgt]

/-- Three scraped candidates whose codes are "a", "b", "ccc": one
numeric-index code, no suffix code of length > 3. -/
def c2entries : List String :=
  ["set/art_th/a.jpg", "set/art_th/b.jpg", "set/art_th/ccc.jpg"]

/-- C2 counterexample: on three candidates with codes "a","b","ccc"
the code raises IndexError for the front face (its suffix list, codes
of length > 3, is empty), while the claim's rules — which put every
non-length-3 code in the suffix list — deliver the "a" image without
error. -/
theorem get_card_face_claim_cex :
    get_card_face c2entries false = Except.error PyErr.indexError ∧
    pick_face_claim c2entries false =
      some "https://mtgpics.com/set/art/a.jpg" := by
  exact ⟨rfl, rfl⟩

/-- C2 amended: `get_card_face` agrees exactly with the amended
count-based rules for every candidate list and both faces. -/
theorem get_card_face_amended_eq (entries : List String) (back : Bool) :
    get_card_face entries back = pick_face_amended entries back := by
  have hlen : (sortStr (faceCodes entries)).length = entries.length := by
    rw [sortStr_length]; exact List.length_map _ _
  have hlenc : (faceCodes entries).length = entries.length :=
    List.length_map _ _
  rcases hs : sortStr (faceCodes entries) with _ | ⟨c1, _ | ⟨c2, _ | ⟨c3, t⟩⟩⟩
  · have h0 : entries.length = 0 := by rw [← hlen, hs]; rfl
    simp [get_card_face, pick_face_amended, hs, h0]
  · have h1 : entries.length = 1 := by rw [← hlen, hs]; rfl
    obtain ⟨x, hx⟩ := List.length_eq_one.mp (hlenc.trans h1)
    have hx1 : x = c1 := by
      rw [hx] at hs; simpa [sortStr, insStr] using hs
    subst hx1
    cases back <;>
      simp [get_card_face, pick_face_amended, hs, h1, hlenc.trans h1, hx, idxE,
        sortStr, insStr, Except.map]
  · have h2 : entries.length = 2 := by rw [← hlen, hs]; rfl
    simp [get_card_face, pick_face_amended, hs, h2, hlenc.trans h2, idxE]
    cases back <;> rfl
  · have h3 : entries.length = t.length + 3 := by rw [← hlen, hs]; rfl
    have hc3 : (faceCodes entries).length = t.length + 3 := hlenc.trans h3
    have e1 : t.length + 3 ≠ 1 := by omega
    have e2 : t.length + 3 ≠ 2 := by omega
    simp only [get_card_face, pick_face_amended, hs, partIS_eq, h3, hc3, e1, e2,
      if_false, Nat.add_eq_zero, and_false, Nat.lt_add_of_pos_left, if_true]
    simp

/-! ## C4 / C7 — `get_mtgp_code` (src/core.py:177-218), `Card.mtgp_code`
(src/card.py:112-127), `MDFC.mtgp_urls` (src/card.py:432-440)

A scraped listing row is its `td` cell texts plus the anchor found in
cell 2: `link2 = none` models `cols[2].find("a") is None` (subscripting
it raises TypeError, `.get` on it raises AttributeError); `some none`
models an `<a>` without an `href` attribute (subscripting raises
KeyError, `.get` yields `""`); `some (some h)` carries the href.  The
page-fetch collaborator `get_mtgp_page` is an oracle from URL to an
optional parsed page. -/

structure MRow where
  cells : List String
  link2 : Option (Option String)
  deriving DecidableEq, Repr

/-- `cols[2].find("a")["href"]` (subscript access, as in `get_mtgp_code`). -/
def rowHrefFull (r : MRow) : Except PyErr String :=
  match r.link2 with
  | none => Except.error PyErr.typeError
  | some none => Except.error PyErr.keyError
  | some (some h) => Except.ok h

/-- Oracle for the two `get_mtgp_page` fetches of `get_mtgp_code`:
`cardPage url = none` models a failed fetch (feeding `None` to
BeautifulSoup raises TypeError); `some none` models a page without the
expected `td` (the subsequent `.find("a")` on `None` raises
AttributeError); `some (some href)` is the extracted link.  `setPage`
returns the parsed listing rows of the set-checklist page. -/
structure CodeOracle where
  cardPage : String → Option (Option String)
  setPage : String → Option (List MRow)

/-- `f"https://mtgpics.com/{replaced}"` with
`href.replace("set?", "set_checklist?")`. -/
def mtgp_link (href : String) : String :=
  "https://mtgpics.com/" ++ pyreplace href "set?" "set_checklist?"

/-- Pass 1 of `get_mtgp_code`: first row with `cols[0].text == num and
name in cols[2].text` (short-circuit, so a too-short row only raises
when its first cell matches). -/
def pass1 (num name : String) : List MRow → Except PyErr (Option String)
  | [] => Except.ok none
  | r :: rs => do
    let n ← idxE r.cells 0
    if n = num then do
      let t ← idxE r.cells 2
      if pyIn name t = true then do
        let h ← rowHrefFull r
        Except.ok (some (pyreplace h "card?ref=" ""))
      else pass1 num name rs
    else pass1 num name rs

/-- Pass 2 of `get_mtgp_code`: first row with `name in cols[2].text`. -/
def pass2 (name : String) : List MRow → Except PyErr (Option String)
  | [] => Except.ok none
  | r :: rs => do
    let t ← idxE r.cells 2
    if pyIn name t = true then do
      let h ← rowHrefFull r
      Except.ok (some (pyreplace h "card?ref=" ""))
    else pass2 name rs

/-- The `try:` block of `get_mtgp_code` (src/core.py:185-215). -/
def get_mtgp_code_body (o : CodeOracle) (set_code num name : String) :
    Except PyErr (Option String) := do
  let page1 ← match o.cardPage
      ("https://www.mtgpics.com/card?ref=" ++ set_code ++ "001") with
    | none => Except.error PyErr.typeError
    | some v => Except.ok v
  let href ← match page1 with
    | none => Except.error PyErr.attributeError
    | some h => Except.ok h
  let rows ← match o.setPage (mtgp_link href) with
    | none => Except.error PyErr.typeError
    | some rows => Except.ok rows
  match ← pass1 num name rows with
  | some code => Except.ok (some code)
  | none => pass2 name rows

/-- `get_mtgp_code` (src/core.py:177-218): the `except (KeyError,
TypeError, IndexError, AttributeError)` handler turns every failure of
the body into `None`. -/
def get_mtgp_code (o : CodeOracle) (set_code num name : String) :
    Option String :=
  match get_mtgp_code_body o set_code num name with
  | Except.ok v => v
  | Except.error _ => none

/-- Claim-side row predicate: exact collector number AND name substring. -/
def rowMatchBoth (num name : String) (r : MRow) : Bool :=
  decide (r.cells.getD 0 "" = num) && pyIn name (r.cells.getD 2 "")

/-- Claim-side row predicate: name substring alone. -/
def rowMatchName (name : String) (r : MRow) : Bool :=
  pyIn name (r.cells.getD 2 "")

/-- A row's reference code (`href` with the `card?ref=` prefix removed). -/
def rowCode (r : MRow) : String :=
  pyreplace ((r.link2.getD none).getD "") "card?ref=" ""

/-- The claim's two-pass description: the code of the first row
matching number and name, else — only when no row matched both — the
code of the first row matching the name alone, else none. -/
def twoPassSpec (rows : List MRow) (num name : String) : Option String :=
  match rows.find? (rowMatchBoth num name) with
  | some r => some (rowCode r)
  | none => (rows.find? (rowMatchName name)).map rowCode

/-- Well-formed listing rows: at least the three accessed cells, and a
proper `<a href=...>` in cell 2. -/
def rowlink_full (r : MRow) : Bool :=
  match r.link2 with
  | some (some _) => true
  | _ => false

abbrev WFRows3 (rows : List MRow) : Prop :=
  ∀ r ∈ rows, 3 ≤ r.cells.length ∧ rowlink_full r = true

/-- Python truthiness of `if code := f(...)`: `None` and `""` fall
through. -/
def truthyOpt : Option String → Option String
  | some s => if s = "" then none else some s
  | none => none

/-- `Card.mtgp_code` (src/card.py:112-127) as a function of the two
resolver outcomes: the promo resolver is consulted only when the
mapped set code is truthy and the promo flag is set; the final
fallback concatenates the *canonical* set code (`self.set`) with the
collector number. -/
def mtgp_code_resolve (mtgp_set_code : String) (promo : Bool)
    (pmo_res code_res : Option String) (set number : String) : String :=
  match (if mtgp_set_code ≠ "" ∧ promo = true then truthyOpt pmo_res else none) with
  | some c => c
  | none =>
    match truthyOpt code_res with
    | some c => c
    | none => set ++ number

/-- `Card.mtgp_url` (src/card.py:157-167): `get_mtgp_page` returning
`None` is checked and yields `None`; otherwise the scraped entries go
to `get_card_face` for the front face. -/
def mtgp_url (page : Option (List String)) : Except PyErr (Option String) :=
  match page with
  | none => Except.ok none
  | some entries => get_card_face entries false

/-- `MDFC.mtgp_urls` (src/card.py:432-440): the raw `requests.get` (not
the guarded `get_mtgp_page`) feeds BeautifulSoup, then both faces go
through `get_card_face`; nothing here is wrapped in a handler, so both
a network error of the fetch and an IndexError of the face pick
propagate. -/
def mtgp_urls (fetchRaw : Except PyErr (List String)) :
    Except PyErr (List (Option String)) := do
  let entries ← fetchRaw
  let f ← get_card_face entries false
  let b ← get_card_face entries true
  Except.ok [f, b]

lemma idxE_ok (l : List String) (i : Nat) (h : i < l.length) :
    idxE l i = Except.ok (l.getD i "") := by
  unfold idxE
  cases hq : l.get? i with
  | none =>
    have := List.get?_eq_none.mp hq
    omega
  | some v =>
    have hv : l.getD i "" = v := by
      rw [List.getD_eq_getElem?_getD, ← List.get?_eq_getElem?, hq]
      rfl
    rw [hv]

lemma pass1_spec (num name : String) (rows : List MRow) (h : WFRows3 rows) :
    pass1 num name rows =
      Except.ok ((rows.find? (rowMatchBoth num name)).map rowCode) := by
  induction rows with
  | nil => rfl
  | cons r rs ih =>
    obtain ⟨hc, hl⟩ := h r (List.mem_cons_self r rs)
    have hrest : WFRows3 rs := fun x hx => h x (List.mem_cons_of_mem r hx)
    cases hlink : r.link2 with
    | none => simp [rowlink_full, hlink] at hl
    | some o =>
      cases o with
      | none => simp [rowlink_full, hlink] at hl
      | some h2 =>
        by_cases hnum : r.cells[0]?.getD "" = num
        · by_cases hname : pyIn name (r.cells[2]?.getD "") = true
          · simp [pass1, idxE_ok r.cells 0 (by omega), idxE_ok r.cells 2 (by omega),
              hnum, hname, rowHrefFull, hlink, List.find?_cons, rowMatchBoth,
              rowCode, Bind.bind, Except.bind]
          · simp [pass1, idxE_ok r.cells 0 (by omega), idxE_ok r.cells 2 (by omega),
              hnum, hname, List.find?_cons, rowMatchBoth, ih hrest,
              Bind.bind, Except.bind]
        · simp [pass1, idxE_ok r.cells 0 (by omega), hnum, List.find?_cons,
            rowMatchBoth, ih hrest, Bind.bind, Except.bind]

lemma pass2_spec (name : String) (rows : List MRow) (h : WFRows3 rows) :
    pass2 name rows =
      Except.ok ((rows.find? (rowMatchName name)).map rowCode) := by
  induction rows with
  | nil => rfl
  | cons r rs ih =>
    obtain ⟨hc, hl⟩ := h r (List.mem_cons_self r rs)
    have hrest : WFRows3 rs := fun x hx => h x (List.mem_cons_of_mem r hx)
    cases hlink : r.link2 with
    | none => simp [rowlink_full, hlink] at hl
    | some o =>
      cases o with
      | none => simp [rowlink_full, hlink] at hl
      | some h2 =>
        by_cases hname : pyIn name (r.cells[2]?.getD "") = true
        · simp [pass2, idxE_ok r.cells 2 (by omega), hname, rowHrefFull, hlink,
            List.find?_cons, rowMatchName, rowCode, Bind.bind, Except.bind]
        · simp [pass2, idxE_ok r.cells 2 (by omega), hname, List.find?_cons,
            rowMatchName, ih hrest, Bind.bind, Except.bind]

/-- C7: resolution scans the listing twice — pass 1 returns the code of
the first row matching both the exact collector number and the name
substring; pass 2, reached only when pass 1 matched nothing, returns
the code of the first row matching the name alone; and when neither the
promotional nor the non-promotional resolver yields a (truthy) code,
`Card.mtgp_code` falls back to canonical set code ++ collector number. -/
theorem get_mtgp_code_two_pass_spec :
    (∀ (o : CodeOracle) (href : String) (rows : List MRow)
       (set_code num name : String),
      o.cardPage ("https://www.mtgpics.com/card?ref=" ++ set_code ++ "001") =
        some (some href) →
      o.setPage (mtgp_link href) = some rows →
      WFRows3 rows →
      get_mtgp_code o set_code num name = twoPassSpec rows num name) ∧
    (∀ (ms : String) (promo : Bool) (set_code num : String),
      mtgp_code_resolve ms promo none none set_code num = set_code ++ num) := by
  constructor
  · intro o href rows set_code num name h1 h2 hwf
    unfold get_mtgp_code get_mtgp_code_body twoPassSpec
    cases hfind : rows.find? (rowMatchBoth num name) with
    | some r =>
      simp [h1, h2, pass1_spec num name rows hwf, hfind, Bind.bind, Except.bind]
    | none =>
      simp [h1, h2, pass1_spec num name rows hwf, pass2_spec name rows hwf,
        hfind, Bind.bind, Except.bind]
  · intro ms promo set_code num
    by_cases hc : ms ≠ "" ∧ promo = true <;> simp [mtgp_code_resolve, truthyOpt, hc]

def c7row : MRow :=
  ⟨["220", "x", "Damnation (MH2)"], some (some "card?ref=mh2220a")⟩

def c7oracle : CodeOracle :=
  { cardPage := fun _ => some (some "set?set=99"),
    setPage := fun _ => some [c7row] }

/-- C7 witness: the two-pass resolution evaluated on a concrete
one-row listing. -/
theorem get_mtgp_code_two_pass_spec_witness :
    get_mtgp_code c7oracle "mh2" "220" "Damnation" =
      twoPassSpec [c7row] "220" "Damnation" :=
  get_mtgp_code_two_pass_spec.1 c7oracle "set?set=99" [c7row]
    "mh2" "220" "Damnation" rfl rfl (by decide)

/-! ## C6 — `get_mtgp_code_pmo` (src/core.py:221-275)

`SequenceMatcher(...).ratio()` and `unidecode` are external pure
helpers, abstracted as the parameters `sim` and `unidec`; the claim is
about the selection logic, which holds for every such pair. -/

structure PmoMatch where
  code : String
  score : ℚ
  deriving DecidableEq

/-- The promo-category listing URL chosen by `get_mtgp_code_pmo`. -/
def pmo_url (promo : String) : String :=
  if promo = "dci" then "https://mtgpics.com/set_checklist?set=18"
  else if promo = "a22" then "https://mtgpics.com/set_checklist?set=375"
  else if promo = "uni" then "https://mtgpics.com/set_checklist?set=201"
  else "https://mtgpics.com/set_checklist?set=72"

/-- `cols[2].find("a").get("href", "")`: a missing `<a>` raises
AttributeError, a missing href attribute defaults to `""`. -/
def rowHrefGet (r : MRow) : Except PyErr String :=
  match r.link2 with
  | none => Except.error PyErr.attributeError
  | some o => Except.ok (o.getD "")

/-- The match-collecting loop of `get_mtgp_code_pmo` (cols[6] artist
check, then cols[2] case-insensitive name check, short-circuit). -/
def pmo_collect (unidec : String → String) (sim : String → String → ℚ)
    (name artist set_name : String) :
    List MRow → Except PyErr (List PmoMatch)
  | [] => Except.ok []
  | r :: rs => do
    let a ← idxE r.cells 6
    if pyIn artist (unidec a) = true then do
      let t ← idxE r.cells 2
      if pyIn (pyLower name) (pyLower t) = true then do
        let h ← rowHrefGet r
        let rest ← pmo_collect unidec sim name artist set_name rs
        Except.ok (⟨pyreplace h "card?ref=" "",
                    sim (pyreplace t name "") set_name⟩ :: rest)
      else pmo_collect unidec sim name artist set_name rs
    else pmo_collect unidec sim name artist set_name rs

/-- Stable insertion for a descending sort: an element goes in front of
the first element whose score it reaches, so equal scores keep their
original relative order (Python's stable `sorted(..., reverse=True)`). -/
def ins6 (x : PmoMatch) : List PmoMatch → List PmoMatch
  | [] => [x]
  | y :: ys => if y.score ≤ x.score then x :: y :: ys else y :: ins6 x ys

/-- `sorted(matches, key=lambda i: i["match"], reverse=True)`. -/
def sort6 : List PmoMatch → List PmoMatch
  | [] => []
  | x :: xs => ins6 x (sort6 xs)

/-- The `try:` block of `get_mtgp_code_pmo`; indexing `[0]` into the
sorted match list raises IndexError when no row qualified. -/
def pmo_body (unidec : String → String) (sim : String → String → ℚ)
    (page : String → Option (List MRow))
    (name artist set_name promo : String) : Except PyErr (Option String) := do
  let rows ← match page (pmo_url promo) with
    | none => Except.error PyErr.typeError
    | some rows => Except.ok rows
  let ms ← pmo_collect unidec sim name artist set_name rows
  match sort6 ms with
  | [] => Except.error PyErr.indexError
  | m :: _ => Except.ok (some m.code)

/-- `get_mtgp_code_pmo` (src/core.py:221-275) with its
`except (KeyError, TypeError, IndexError, AttributeError)` → `None`. -/
def get_mtgp_code_pmo (unidec : String → String) (sim : String → String → ℚ)
    (page : String → Option (List MRow))
    (name artist set_name promo : String) : Option String :=
  match pmo_body unidec sim page name artist set_name promo with
  | Except.ok v => v
  | Except.error _ => none

/-- The claim's qualifying rows: artist text contains the artist name
and the name cell contains the card name case-insensitively. -/
def pmo_qualified (unidec : String → String) (name artist : String)
    (rows : List MRow) : List MRow :=
  rows.filter (fun r =>
    pyIn artist (unidec (r.cells.getD 6 "")) &&
    pyIn (pyLower name) (pyLower (r.cells.getD 2 "")))

/-- The claim's candidates: qualified rows with their reference code
and similarity score (name removed from the name cell, against the
set's display name). -/
def pmo_candidates (unidec : String → String) (sim : String → String → ℚ)
    (name artist set_name : String) (rows : List MRow) : List PmoMatch :=
  (pmo_qualified unidec name artist rows).map
    (fun r => ⟨rowCode r, sim (pyreplace (r.cells.getD 2 "") name "") set_name⟩)

/-- The first-encountered maximum-score candidate. -/
def firstMax : List PmoMatch → Option PmoMatch
  | [] => none
  | x :: xs =>
    match firstMax xs with
    | none => some x
    | some m => if m.score ≤ x.score then some x else some m

abbrev WFRows7 (rows : List MRow) : Prop :=
  ∀ r ∈ rows, 7 ≤ r.cells.length ∧ r.link2.isSome = true

lemma pmo_collect_spec (unidec : String → String) (sim : String → String → ℚ)
    (name artist set_name : String) (rows : List MRow) (h : WFRows7 rows) :
    pmo_collect unidec sim name artist set_name rows =
      Except.ok (pmo_candidates unidec sim name artist set_name rows) := by
  induction rows with
  | nil => rfl
  | cons r rs ih =>
    obtain ⟨hc, hl⟩ := h r (List.mem_cons_self r rs)
    have hrest : WFRows7 rs := fun x hx => h x (List.mem_cons_of_mem r hx)
    cases hlink : r.link2 with
    | none => rw [hlink] at hl; cases hl
    | some o =>
      by_cases hart : pyIn artist (unidec (r.cells[6]?.getD "")) = true
      · by_cases hname : pyIn (pyLower name) (pyLower (r.cells[2]?.getD "")) = true
        · simp [pmo_collect, idxE_ok r.cells 6 (by omega),
            idxE_ok r.cells 2 (by omega), hart, hname, rowHrefGet, hlink,
            ih hrest, pmo_candidates, pmo_qualified, List.filter_cons,
            rowCode, Bind.bind, Except.bind]
        · simp [pmo_collect, idxE_ok r.cells 6 (by omega),
            idxE_ok r.cells 2 (by omega), hart, hname, ih hrest,
            pmo_candidates, pmo_qualified, List.filter_cons,
            Bind.bind, Except.bind]
      · simp [pmo_collect, idxE_ok r.cells 6 (by omega), hart, ih hrest,
          pmo_candidates, pmo_qualified, List.filter_cons,
          Bind.bind, Except.bind]

lemma firstMax_eq_none (l : List PmoMatch) : firstMax l = none ↔ l = [] := by
  cases l with
  | nil => simp [firstMax]
  | cons x xs =>
    simp only [firstMax]
    cases firstMax xs with
    | none => simp
    | some m => by_cases hc : m.score ≤ x.score <;> simp [hc]

lemma sort6_head (l : List PmoMatch) : (sort6 l).head? = firstMax l := by
  induction l with
  | nil => rfl
  | cons x xs ih =>
    cases hs : sort6 xs with
    | nil =>
      have hfm : firstMax xs = none := by rw [← ih, hs]; rfl
      simp [sort6, hs, ins6, firstMax, hfm]
    | cons y ys =>
      have hfm : firstMax xs = some y := by rw [← ih, hs]; rfl
      by_cases hcmp : y.score ≤ x.score
      · simp [sort6, hs, ins6, hcmp, firstMax, hfm]
      · simp [sort6, hs, ins6, hcmp, firstMax, hfm]

lemma firstMax_spec (l : List PmoMatch) (m : PmoMatch) (h : firstMax l = some m) :
    ∃ l1 l2, l = l1 ++ m :: l2 ∧ (∀ x ∈ l1, x.score < m.score) ∧
      (∀ x ∈ l2, x.score ≤ m.score) := by
  induction l generalizing m with
  | nil => cases h
  | cons x xs ih =>
    cases hx : firstMax xs with
    | none =>
      have hxs : xs = [] := (firstMax_eq_none xs).mp hx
      subst hxs
      have hm : x = m := by simpa [firstMax] using h
      subst hm
      exact ⟨[], [], rfl, by simp, by simp⟩
    | some k =>
      have h9 : (if k.score ≤ x.score then some x else some k) = some m := by
        rw [firstMax, hx] at h
        exact h
      by_cases hcmp : k.score ≤ x.score
      · rw [if_pos hcmp] at h9
        obtain rfl : x = m := by injection h9
        obtain ⟨l1, l2, hsplit, hlt, hle⟩ := ih k hx
        refine ⟨[], xs, rfl, by simp, ?_⟩
        intro y hy
        rw [hsplit] at hy
        rcases List.mem_append.mp hy with hy1 | hy2
        · exact le_trans (le_of_lt (hlt y hy1)) hcmp
        · rcases List.mem_cons.mp hy2 with rfl | hy3
          · exact hcmp
          · exact le_trans (hle y hy3) hcmp
      · rw [if_neg hcmp] at h9
        obtain rfl : k = m := by injection h9
        obtain ⟨l1, l2, hsplit, hlt, hle⟩ := ih k hx
        refine ⟨x :: l1, l2, by rw [hsplit]; rfl, ?_, hle⟩
        intro y hy
        rcases List.mem_cons.mp hy with rfl | hy1
        · exact lt_of_not_le hcmp
        · exact hlt y hy1

/-- C6: among the qualifying listing rows the selected reference code
is the one of the maximum-similarity candidate, ties resolving to the
first-encountered row (everything strictly before the selected
candidate scores strictly less, everything after scores no more), and
the result is none when no rows qualify. -/
theorem get_mtgp_code_pmo_spec (unidec : String → String)
    (sim : String → String → ℚ) (page : String → Option (List MRow))
    (rows : List MRow) (name artist set_name promo : String)
    (hpage : page (pmo_url promo) = some rows) (hwf : WFRows7 rows) :
    (get_mtgp_code_pmo unidec sim page name artist set_name promo =
      (firstMax (pmo_candidates unidec sim name artist set_name rows)).map
        PmoMatch.code) ∧
    (∀ m, firstMax (pmo_candidates unidec sim name artist set_name rows) =
        some m →
      ∃ l1 l2, pmo_candidates unidec sim name artist set_name rows =
          l1 ++ m :: l2 ∧
        (∀ x ∈ l1, x.score < m.score) ∧ (∀ x ∈ l2, x.score ≤ m.score)) ∧
    (pmo_candidates unidec sim name artist set_name rows = [] →
      get_mtgp_code_pmo unidec sim page name artist set_name promo = none) := by
  have hmain : get_mtgp_code_pmo unidec sim page name artist set_name promo =
      (firstMax (pmo_candidates unidec sim name artist set_name rows)).map
        PmoMatch.code := by
    unfold get_mtgp_code_pmo pmo_body
    rw [← sort6_head]
    cases hsrt : sort6 (pmo_candidates unidec sim name artist set_name rows) with
    | nil =>
      simp [hpage, pmo_collect_spec unidec sim name artist set_name rows hwf,
        hsrt, Bind.bind, Except.bind]
    | cons m ms =>
      simp [hpage, pmo_collect_spec unidec sim name artist set_name rows hwf,
        hsrt, Bind.bind, Except.bind]
  refine ⟨hmain, fun m => firstMax_spec _ m, fun hempty => ?_⟩
  rw [hmain, hempty]
  rfl

def c6row : MRow :=
  ⟨["1", "x", "Promo Damnation", "", "", "", "Artist A"],
   some (some "card?ref=pmo1")⟩

def c6page : String → Option (List MRow) := fun _ => some [c6row]

/-- C6 witness: the selection equality evaluated on a concrete one-row
promo listing. -/
theorem get_mtgp_code_pmo_spec_witness :
    get_mtgp_code_pmo id (fun _ _ => (1 : ℚ)) c6page
        "Damnation" "Artist" "Promos" "pmo" =
      (firstMax (pmo_candidates id (fun _ _ => (1 : ℚ))
        "Damnation" "Artist" "Promos" [c6row])).map PmoMatch.code :=
  (get_mtgp_code_pmo_spec id (fun _ _ => (1 : ℚ)) c6page [c6row]
    "Damnation" "Artist" "Promos" "pmo" rfl (by decide)).1

/-! ## C4 — theorems -/

/-- C4 counterexample: `MDFC.mtgp_urls` propagates failures to its
caller — a network error of its raw `requests.get`, and even with a
successful fetch the IndexError that `get_card_face` raises on the
degenerate candidate list `c2entries`.  (The claim asserts no
exception ever propagates from image-URL scraping.) -/
theorem mtgp_urls_propagates_cex :
    mtgp_urls (Except.error PyErr.netError) = Except.error PyErr.netError ∧
    mtgp_urls (Except.ok c2entries) = Except.error PyErr.indexError := by
  exact ⟨rfl, rfl⟩

/-- C4 amended: failures during *reference resolution* are indeed all
caught locally and turned into a none result — whenever the body of
`get_mtgp_code` or of `get_mtgp_code_pmo` raises, the function returns
none and nothing propagates; the exemption is image-URL scraping
(`Card.mtgp_url` / `MDFC.mtgp_urls`), which can propagate
(counterexample above). -/
theorem resolver_failures_caught :
    (∀ (o : CodeOracle) (set_code num name : String) (e : PyErr),
      get_mtgp_code_body o set_code num name = Except.error e →
      get_mtgp_code o set_code num name = none) ∧
    (∀ (unidec : String → String) (sim : String → String → ℚ)
       (page : String → Option (List MRow))
       (name artist set_name promo : String) (e : PyErr),
      pmo_body unidec sim page name artist set_name promo = Except.error e →
      get_mtgp_code_pmo unidec sim page name artist set_name promo = none) := by
  constructor
  · intro o set_code num name e h
    unfold get_mtgp_code
    rw [h]
  · intro unidec sim page name artist set_name promo e h
    unfold get_mtgp_code_pmo
    rw [h]

def c4oracle : CodeOracle :=
  { cardPage := fun _ => none, setPage := fun _ => none }

/-- C4 witness: a failed first fetch (TypeError inside the body) is
caught and yields none. -/
theorem resolver_failures_caught_witness :
    get_mtgp_code c4oracle "mh2" "220" "Damnation" = none :=
  resolver_failures_caught.1 c4oracle "mh2" "220" "Damnation"
    PyErr.typeError rfl

/-! ## C8 — `Card.download` (src/card.py:218-242) and `MDFC.download`
(src/card.py:473-508)

The collaborator outcomes (`download_mtgp`, `download_scryfall`, each
already False on a missing url/path) are Booleans; a `log_failed` call
becomes a `LogEvent` carrying the label, whether it echoes to the
console (`print_out`), and the action tag.  The returned triples are
the `DownloadResult`s `(success, label, path)`. -/

structure DLCfg where
  only_scryfall : Bool
  download_scryfall : Bool
  deriving DecidableEq, Repr

structure LogEvent where
  label : String
  print_out : Bool
  action : String
  deriving DecidableEq, Repr

/-- `Card.download` (src/card.py:218-242): result list and the
`log_failed` events it emits, in order. -/
def card_download (cfg : DLCfg) (mtgp_ok scry_ok : Bool)
    (label mtgp_path scry_path : String) (logging : Bool) :
    List (Bool × String × String) × List LogEvent :=
  if cfg.only_scryfall then
    (if scry_ok then ([(true, label, scry_path)], [])
     else ([(false, label, scry_path)], [⟨label, true, "SCRY"⟩]))
  else if !mtgp_ok then
    (if cfg.download_scryfall && scry_ok && logging then
      ([(false, label, scry_path)], [⟨label, false, "MTGP"⟩])
     else if logging then
      ([(false, label, scry_path)], [⟨label, true, "MTGP"⟩])
     else ([(false, label, scry_path)], []))
  else ([(true, label, mtgp_path)], [])

/-- Per-face inputs of `MDFC.download`: the two collaborator outcomes
and the face's label and paths. -/
structure FaceAttempt where
  mtgp_ok : Bool
  scry_ok : Bool
  label : String
  mtgp_path : String
  scry_path : String
  deriving DecidableEq, Repr

/-- `MDFC.download` (src/card.py:473-508): the per-face loop, front
face first.  Note the loop appends `mtgp_paths[i]` to the result even
when the face fell back to Scryfall, and its quiet log on a successful
Scryfall fallback is unconditional on `logging`. -/
def mdfc_download (cfg : DLCfg) (logging : Bool) :
    List FaceAttempt → List (Bool × String × String) × List LogEvent
  | [] => ([], [])
  | f :: fs =>
    let rest := mdfc_download cfg logging fs
    if cfg.only_scryfall then
      ((f.scry_ok, f.label, f.scry_path) :: rest.1,
       (if !f.scry_ok && logging then [⟨f.label, true, "SCRY"⟩] else []) ++ rest.2)
    else
      ((f.mtgp_ok, f.label, f.mtgp_path) :: rest.1,
       (if !f.mtgp_ok then
          (if cfg.download_scryfall && f.scry_ok then [⟨f.label, false, "MTGP"⟩]
           else if logging then [⟨f.label, true, "MTGP"⟩]
           else [])
        else []) ++ rest.2)

/-- C8: when the primary (MTGP) attempt fails and the Scryfall
fallback succeeds with logging enabled, the face's label is logged
quietly (`print_out = false`), the per-face result reports
`success = false`, and the reported path is the Scryfall path for a
single-face card but the MTGP path for a face of a multi-face card. -/
theorem download_quiet_log_spec (label mtgp_path scry_path : String)
    (fs : List FaceAttempt) :
    card_download ⟨false, true⟩ false true label mtgp_path scry_path true =
      ([(false, label, scry_path)], [⟨label, false, "MTGP"⟩]) ∧
    mdfc_download ⟨false, true⟩ true
        (⟨false, true, label, mtgp_path, scry_path⟩ :: fs) =
      ((false, label, mtgp_path) ::
         (mdfc_download ⟨false, true⟩ true fs).1,
       ⟨label, false, "MTGP"⟩ :: (mdfc_download ⟨false, true⟩ true fs).2) := by
  constructor
  · rfl
  · simp [mdfc_download]

/-! ## C9 — `Card.check_path` (src/card.py:301-311) and
`Card.generate_path` (src/card.py:204-216)

The `while os.path.isfile(...)` loop is embedded with explicit fuel
(the filesystem probe `os.path.isfile` is the Boolean oracle
`isfile`); any run in which a free name exists within the fuel bound
behaves exactly like the source loop.  Each iteration rebuilds its
candidate from the *original* path: `path.replace(".jpg", f" ({i}).jpg")`. -/

/-- The i-th probed name: the path itself, then the path with ".jpg"
replaced by " (i).jpg". -/
def path_candidate (path : String) : Nat → String
  | 0 => path
  | n + 1 => pyreplace path ".jpg" (" (" ++ natToStr (n + 1) ++ ").jpg")

/-- `Card.check_path` (src/card.py:301-311). -/
def check_path_fuel (isfile : String → Bool) (path : String) :
    Nat → Nat → String
  | i, 0 => path_candidate path i
  | i, fuel + 1 =>
    if isfile (path_candidate path i) then
      check_path_fuel isfile path (i + 1) fuel
    else path_candidate path i

/-- `Card.naming_convention` (src/card.py:313-331); `sanitize_filename`
is the external pathvalidate helper, abstracted as `sanitize`. -/
def naming_convention (sanitize : String → String)
    (naming name artist set number : String) : String :=
  sanitize (pyreplace (pyreplace (pyreplace (pyreplace
    naming "NAME" name) "ARTIST" artist) "SET" set) "NUMBER" number)

/-- `Card.generate_path` (src/card.py:204-216): join, then probe for a
free name unless the overwrite flag is set. -/
def generate_path (sanitize : String → String) (naming : String)
    (overwrite : Bool) (isfile : String → Bool) (fuel : Nat)
    (dir name artist set number : String) : String :=
  if overwrite then
    dir ++ "/" ++ naming_convention sanitize naming name artist (pyUpper set) number ++ ".jpg"
  else
    check_path_fuel isfile
      (dir ++ "/" ++ naming_convention sanitize naming name artist (pyUpper set) number ++ ".jpg")
      0 fuel

lemma check_path_fuel_spec (isfile : String → Bool) (path : String) :
    ∀ (fuel i n : Nat), i ≤ n → n < i + fuel →
      isfile (path_candidate path n) = false →
      ∃ k, i ≤ k ∧ k ≤ n ∧
        check_path_fuel isfile path i fuel = path_candidate path k ∧
        isfile (path_candidate path k) = false ∧
        ∀ m, i ≤ m → m < k → isfile (path_candidate path m) = true := by
  intro fuel
  induction fuel with
  | zero => intro i n h1 h2 _; omega
  | succ f ih =>
    intro i n h1 h2 hfree
    by_cases hc : isfile (path_candidate path i) = true
    · have hne : i ≠ n := by
        intro he
        rw [he, hfree] at hc
        cases hc
      obtain ⟨k, hk0, hk2, hk3, hk4, hk5⟩ :=
        ih (i + 1) n (by omega) (by omega) hfree
      refine ⟨k, by omega, hk2, ?_, hk4, ?_⟩
      · rw [check_path_fuel, if_pos hc]
        exact hk3
      · intro m hm1 hm2
        rcases Nat.eq_or_lt_of_le hm1 with he | hlt
        · rw [← he]; exact hc
        · exact hk5 m hlt hm2
    · have hcf : isfile (path_candidate path i) = false :=
        Bool.eq_false_iff.mpr hc
      refine ⟨i, le_refl i, h1, ?_, hcf, ?_⟩
      · rw [check_path_fuel, if_neg hc]
      · intro m hm1 hm2
        omega

def c9files1 : String → Bool := fun s => s == "Card.jpg"

def c9files2 : String → Bool := fun s => s == "Card.jpg" || s == "Card (1).jpg"

/-- C9: with the overwrite flag unset, path generation probes the
filesystem through `check_path`; the probe returns the first candidate
in the sequence name, " (1)", " (2)", … that does not exist (every
earlier candidate exists — strictly increasing, skipping no integer);
and concretely, with "Card.jpg" existing the two successive requests
yield "Card (1).jpg", then — once that file exists too — "Card (2).jpg". -/
theorem check_path_collision_spec :
    (∀ (isfile : String → Bool) (path : String) (fuel n : Nat),
      n < fuel → isfile (path_candidate path n) = false →
      ∃ k, k ≤ n ∧
        check_path_fuel isfile path 0 fuel = path_candidate path k ∧
        isfile (path_candidate path k) = false ∧
        ∀ m, m < k → isfile (path_candidate path m) = true) ∧
    (∀ (sanitize : String → String) (naming : String) (isfile : String → Bool)
       (fuel : Nat) (dir name artist set number : String),
      generate_path sanitize naming false isfile fuel dir name artist set number =
        check_path_fuel isfile
          (dir ++ "/" ++ naming_convention sanitize naming name artist (pyUpper set) number ++ ".jpg")
          0 fuel) ∧
    check_path_fuel c9files1 "Card.jpg" 0 5 = "Card (1).jpg" ∧
    check_path_fuel c9files2 "Card.jpg" 0 5 = "Card (2).jpg" := by
  refine ⟨?_, ?_, rfl, rfl⟩
  · intro isfile path fuel n hn hfree
    obtain ⟨k, _, hk2, hk3, hk4, hk5⟩ :=
      check_path_fuel_spec isfile path fuel 0 n (Nat.zero_le n) (by omega) hfree
    exact ⟨k, hk2, hk3, hk4, fun m hm => hk5 m (Nat.zero_le m) hm⟩
  · intro sanitize naming isfile fuel dir name artist set number
    rfl

/-- C9 witness: the general first-free-name property evaluated with
"Card.jpg" existing and candidate 1 free. -/
theorem check_path_collision_spec_witness :
    ∃ k, k ≤ 1 ∧
      check_path_fuel c9files1 "Card.jpg" 0 5 = path_candidate "Card.jpg" k ∧
      c9files1 (path_candidate "Card.jpg" k) = false ∧
      ∀ m, m < k → c9files1 (path_candidate "Card.jpg" m) = true :=
  check_path_collision_spec.1 c9files1 "Card.jpg" 5 1 (by decide) (by decide)

/-! ## C10 — `filter_files_from_zip` / `is_card_in_zip` /
`is_render_in_zip` (src/core.py:389-427)

The zipfile collaborator is modelled at the boundary the code derives
from it: `zip_file_basenames`, the extension-stripped entry basenames.
`getattr(card_class(card), "name_saved", None)` exists exactly on the
Adventure and Flip classes; `name` is overridden (to the first face's
name) and `name_back` defined (second face) exactly on the MDFC family
(MDFC, Split, Transform, Reversible).  Face access is `c["card_faces"]
[i]["name"]`: a missing key raises KeyError, a short list IndexError,
and `int('')` on a digit-less collector number raises ValueError — all
uncaught here. -/

/-- Classes defining `name_saved` (Adventure, Flip). -/
def has_name_saved (cc : CardClass) : Bool :=
  match cc with
  | CardClass.adventure => true
  | CardClass.flip => true
  | _ => false

/-- Classes overriding `name` and defining `name_back` (MDFC family). -/
def is_mdfc_family (cc : CardClass) : Bool :=
  match cc with
  | CardClass.mdfc => true
  | CardClass.split => true
  | CardClass.transform => true
  | CardClass.reversible => true
  | _ => false

/-- `self.c["card_faces"][i]`. -/
def face_get (c : CardRec) (i : Nat) : Except PyErr FaceData :=
  match c.card_faces with
  | none => Except.error PyErr.keyError
  | some fs =>
    match fs.get? i with
    | some f => Except.ok f
    | none => Except.error PyErr.indexError

/-- `getattr(card_class(card), "name_saved", None)`. -/
def name_saved_attr (cc : CardClass) (c : CardRec) :
    Except PyErr (Option String) :=
  if has_name_saved cc then (face_get c 0).map (fun f => some f.name)
  else Except.ok none

/-- `card_class(card).name`. -/
def name_attr (cc : CardClass) (c : CardRec) : Except PyErr String :=
  if is_mdfc_family cc then (face_get c 0).map FaceData.name
  else Except.ok c.name

/-- `getattr(card_class(card), "name_back", None)`. -/
def name_back_attr (cc : CardClass) (c : CardRec) :
    Except PyErr (Option String) :=
  if is_mdfc_family cc then (face_get c 1).map (fun f => some f.name)
  else Except.ok none

/-- `card.get('cn') or card.get('collector_number')` (Python-falsy
fallthrough on the empty string). -/
def cardNumber (c : CardRec) : String :=
  match c.cn with
  | some s => if s = "" then c.collector_number else s
  | none => c.collector_number

/-- The expected archive entry basename
`f"{render} [{set.upper()}] {{{int(digits)}}}"`; `int` on a digit-less
collector number raises ValueError. -/
def expected_name (c : CardRec) (render : String) : Except PyErr String :=
  if ((cardNumber c).data.filter Char.isDigit).isEmpty then
    Except.error PyErr.valueError
  else
    Except.ok (render ++ " [" ++ pyUpper c.set ++ "] \x7b" ++
      natToStr (digitsToNat ((cardNumber c).data.filter Char.isDigit)) ++ "\x7d")

/-- `is_render_in_zip` (src/core.py:418-427). -/
def is_render_in_zip (render : String) (c : CardRec)
    (basenames : List String) : Except PyErr Bool :=
  (expected_name c render).map (fun nm => basenames.contains nm)

/-- The `all(...)` generator of `is_card_in_zip` (short-circuits on the
first missing render). -/
def renders_all (c : CardRec) (basenames : List String) :
    List String → Except PyErr Bool
  | [] => Except.ok true
  | r :: rs => do
    let b ← is_render_in_zip r c basenames
    if b then renders_all c basenames rs else Except.ok false

/-- `is_card_in_zip` (src/core.py:406-416). -/
def is_card_in_zip (c : CardRec) (basenames : List String) :
    Except PyErr Bool := do
  let ns ← name_saved_attr (get_card_class c) c
  let n0 ← name_attr (get_card_class c) c
  let nb ← name_back_attr (get_card_class c) c
  renders_all c basenames
    ((match ns with
      | some s => if s = "" then n0 else s
      | none => n0) ::
     (match nb with
      | some s => if s ≠ "" ∧ c.layout ≠ "adventure" then [s] else []
      | none => []))

/-- The filtering comprehension of `filter_files_from_zip`
(order-preserving). -/
def filterCards (basenames : List String) :
    List CardRec → Except PyErr (List CardRec)
  | [] => Except.ok []
  | c :: cs => do
    let b ← is_card_in_zip c basenames
    let rest ← filterCards basenames cs
    Except.ok (if b then rest else c :: rest)

/-- `filter_files_from_zip` (src/core.py:389-404): a missing archive
path raises FileNotFoundError before anything else happens. -/
def filter_files_from_zip (archive_exists : Bool) (basenames : List String)
    (cards : List CardRec) : Except PyErr (List CardRec) :=
  if archive_exists then filterCards basenames cards
  else Except.error PyErr.fileNotFound

/-- Spec-side: the record's required face renders (claim / spec §6). -/
def required_renders (c : CardRec) : List String :=
  (if has_name_saved (get_card_class c) then
    (if ((c.card_faces.getD []).getD 0 ⟨"", ""⟩).name = "" then
      (if is_mdfc_family (get_card_class c) then
        ((c.card_faces.getD []).getD 0 ⟨"", ""⟩).name
       else c.name)
     else ((c.card_faces.getD []).getD 0 ⟨"", ""⟩).name)
   else
    (if is_mdfc_family (get_card_class c) then
      ((c.card_faces.getD []).getD 0 ⟨"", ""⟩).name
     else c.name)) ::
  (if is_mdfc_family (get_card_class c) then
    (if ((c.card_faces.getD []).getD 1 ⟨"", ""⟩).name ≠ "" ∧
        c.layout ≠ "adventure" then
      [((c.card_faces.getD []).getD 1 ⟨"", ""⟩).name]
     else [])
   else [])

/-- Spec-side: the expected archive basename of one render. -/
def expected_name_total (c : CardRec) (render : String) : String :=
  render ++ " [" ++ pyUpper c.set ++ "] \x7b" ++
    natToStr (digitsToNat ((cardNumber c).data.filter Char.isDigit)) ++ "\x7d"

/-- Spec-side: every required face's expected filename is an archive
entry basename. -/
def allFacesInZip (c : CardRec) (basenames : List String) : Bool :=
  (required_renders c).all
    (fun r => basenames.contains (expected_name_total c r))

/-- Faces required on the object path (1 for Adventure/Flip, 2 for the
MDFC family, both when the two flag sets overlap). -/
def facesNeeded (cc : CardClass) : Nat :=
  max (if has_name_saved cc then 1 else 0) (if is_mdfc_family cc then 2 else 0)

/-- A record the filter can process without raising: enough faces for
its class and at least one digit in its collector number. -/
def wfCard (c : CardRec) : Bool :=
  (decide (facesNeeded (get_card_class c) = 0) ||
   (match c.card_faces with
    | some fs => decide (facesNeeded (get_card_class c) ≤ fs.length)
    | none => false)) &&
  !((cardNumber c).data.filter Char.isDigit).isEmpty

lemma face_get_ok (c : CardRec) (fs : List FaceData) (i : Nat)
    (hf : c.card_faces = some fs) (hi : i < fs.length) :
    face_get c i = Except.ok (fs.getD i ⟨"", ""⟩) := by
  unfold face_get
  rw [hf]
  cases hq : fs.get? i with
  | none =>
    have := List.get?_eq_none.mp hq
    omega
  | some v =>
    have hq9 : fs[i]? = some v := by
      rw [← List.get?_eq_getElem?]
      exact hq
    simp [hq9]

lemma renders_all_spec (c : CardRec) (basenames : List String)
    (rs : List String)
    (hd : ((cardNumber c).data.filter Char.isDigit).isEmpty = false) :
    renders_all c basenames rs =
      Except.ok (rs.all (fun r => basenames.contains (expected_name_total c r))) := by
  induction rs with
  | nil => rfl
  | cons r rest ih =>
    by_cases hb : expected_name_total c r ∈ basenames <;>
      simp only [expected_name_total] at hb
    · simp [renders_all, is_render_in_zip, expected_name, hd,
        expected_name_total, hb, ih, Bind.bind, Except.bind, Except.map]
    · simp [renders_all, is_render_in_zip, expected_name, hd,
        expected_name_total, hb, Bind.bind, Except.bind, Except.map]

lemma is_card_in_zip_spec (c : CardRec) (basenames : List String)
    (h : wfCard c = true) :
    is_card_in_zip c basenames = Except.ok (allFacesInZip c basenames) := by
  simp only [wfCard, Bool.and_eq_true, Bool.not_eq_true'] at h
  obtain ⟨hfc, hdig⟩ := h
  by_cases hns : has_name_saved (get_card_class c) = true <;>
    by_cases hmd : is_mdfc_family (get_card_class c) = true
  · have hneed : facesNeeded (get_card_class c) = 2 := by
      simp [facesNeeded, hns, hmd]
    rw [hneed] at hfc
    cases hcf : c.card_faces with
    | none => rw [hcf] at hfc; simp at hfc
    | some fs =>
      rw [hcf] at hfc
      simp at hfc
      simp [is_card_in_zip, name_saved_attr, name_attr, name_back_attr,
        hns, hmd, face_get_ok c fs 0 hcf (by omega),
        face_get_ok c fs 1 hcf (by omega),
        renders_all_spec c basenames _ hdig, allFacesInZip, required_renders,
        hcf, Bind.bind, Except.bind, Except.map, ite_self]
  · have hneed : facesNeeded (get_card_class c) = 1 := by
      simp [facesNeeded, hns, hmd]
    rw [hneed] at hfc
    cases hcf : c.card_faces with
    | none => rw [hcf] at hfc; simp at hfc
    | some fs =>
      rw [hcf] at hfc
      simp at hfc
      simp [is_card_in_zip, name_saved_attr, name_attr, name_back_attr,
        hns, hmd, face_get_ok c fs 0 hcf (by omega),
        renders_all_spec c basenames _ hdig, allFacesInZip, required_renders,
        hcf, Bind.bind, Except.bind, Except.map, ite_self]
  · have hneed : facesNeeded (get_card_class c) = 2 := by
      simp [facesNeeded, hns, hmd]
    rw [hneed] at hfc
    cases hcf : c.card_faces with
    | none => rw [hcf] at hfc; simp at hfc
    | some fs =>
      rw [hcf] at hfc
      simp at hfc
      simp [is_card_in_zip, name_saved_attr, name_attr, name_back_attr,
        hns, hmd, face_get_ok c fs 0 hcf (by omega),
        face_get_ok c fs 1 hcf (by omega),
        renders_all_spec c basenames _ hdig, allFacesInZip, required_renders,
        hcf, Bind.bind, Except.bind, Except.map, ite_self]
  · simp [is_card_in_zip, name_saved_attr, name_attr, name_back_attr,
      hns, hmd, renders_all_spec c basenames _ hdig, allFacesInZip,
      required_renders, Bind.bind, Except.bind, Except.map]

lemma filterCards_spec (basenames : List String) (cards : List CardRec)
    (h : ∀ c ∈ cards, wfCard c = true) :
    filterCards basenames cards =
      Except.ok (cards.filter (fun c => !(allFacesInZip c basenames))) := by
  induction cards with
  | nil => rfl
  | cons c cs ih =>
    have hc := h c (List.mem_cons_self c cs)
    have hrest := ih (fun x hx => h x (List.mem_cons_of_mem c hx))
    by_cases hz : allFacesInZip c basenames = true
    · simp [filterCards, is_card_in_zip_spec c basenames hc, hrest, hz,
        List.filter_cons, Bind.bind, Except.bind]
    · simp [filterCards, is_card_in_zip_spec c basenames hc, hrest, hz,
        List.filter_cons, Bind.bind, Except.bind]

/-- C10: the archive pre-filter raises its fatal archive-not-found
error exactly when the archive path does not exist (never swallowed),
and otherwise excludes exactly those records all of whose required
faces' expected filenames are already archive entry basenames,
preserving the order of the remaining records (a `List.filter`). -/
theorem filter_files_from_zip_spec :
    (∀ (basenames : List String) (cards : List CardRec),
      filter_files_from_zip false basenames cards =
        Except.error PyErr.fileNotFound) ∧
    (∀ (basenames : List String) (cards : List CardRec),
      (∀ c ∈ cards, wfCard c = true) →
      filter_files_from_zip true basenames cards =
        Except.ok (cards.filter (fun c => !(allFacesInZip c basenames)))) := by
  constructor
  · intro basenames cards
    rfl
  · intro basenames cards h
    unfold filter_files_from_zip
    rw [if_pos rfl]
    exact filterCards_spec basenames cards h

def c10a : CardRec :=
  { name := "Opt", set := "inv", collector_number := "66", layout := "normal" }

def c10b : CardRec :=
  { name := "Ponder", set := "lrw", collector_number := "52", layout := "normal" }

/-- C10 witness: the exclusion equality evaluated on a concrete archive
holding only c10a's render. -/
theorem filter_files_from_zip_spec_witness :
    filter_files_from_zip true ["Opt [INV] \x7b66\x7d"] [c10a, c10b] =
      Except.ok ([c10a, c10b].filter
        (fun c => !(allFacesInZip c ["Opt [INV] \x7b66\x7d"]))) :=
  filter_files_from_zip_spec.2 ["Opt [INV] \x7b66\x7d"] [c10a, c10b] (by decide)
